import Mathlib

/-!
Verification development for the mihomot terminal client.

Shallow embedding of the asynchronous telemetry-and-control core:
application settings loading (src/app.rs), the control-client request
builders and fetch/update state transitions (src/app.rs), the
single-target latency probe (src/app.rs, trigger_latency_test), the
event-loop channel drains (src/main.rs, run_app), the traffic ring
buffers (App::on_traffic, called from src/main.rs), latency colour
classification (src/ui.rs), and the group navigation helpers
(src/app.rs, next_group / previous_group).

Machine integers (u16, u64, usize) are modelled as Nat; the only place
where overflow/underflow matters is the unguarded `len() - 1` in the
navigation helpers, which is modelled explicitly by an Option result
(none = the debug-mode panic of an underflowing unsigned subtraction).
Fallible operations return the new state together with an
`Except String Unit` mirroring the Rust `Result<()>`.
-/

/-! ## Settings (src/app.rs lines 50-87, 200-221) -/

/-- `AppSettings` from src/app.rs: base_url, api_secret, test_url,
test_timeout (u64 milliseconds, modelled as Nat). -/
structure AppSettings where
  base_url : String
  api_secret : String
  test_url : String
  test_timeout : Nat
  deriving DecidableEq, Repr

/-- `default_base_url` from src/app.rs line 62. -/
def default_base_url : String := "http://127.0.0.1:9090"

/-- `default_api_secret` from src/app.rs line 66: the environment
variable MIHOMO_SECRET if set, otherwise the fixed fallback "mihomo".
The environment is passed in as an explicit `Option String`. -/
def default_api_secret (env : Option String) : String :=
  env.getD "mihomo"

/-- `default_test_url` from src/app.rs line 70. -/
def default_test_url : String := "https://www.google.com"

/-- `default_test_timeout` from src/app.rs line 74. -/
def default_test_timeout : Nat := 3000

/-- `AppSettings::default` from src/app.rs lines 78-87. -/
def defaultAppSettings (env : Option String) : AppSettings :=
  { base_url := default_base_url
    api_secret := default_api_secret env
    test_url := default_test_url
    test_timeout := default_test_timeout }

/-- The outcome of looking for the settings file in
`App::load_app_settings` (src/app.rs lines 213-221): either no readable
file is found (no HOME, path does not exist, or read fails), or the
file's content is read and serde parsing yields `some` settings or
fails (`none`). -/
inductive SettingsFile where
  | missing
  | present (parsed : Option AppSettings)
  deriving DecidableEq, Repr

/-- `App::load_app_settings` from src/app.rs lines 213-221:
`serde_json::from_str(&content).unwrap_or_default()` when a readable
file exists, `AppSettings::default()` otherwise.  Total: no error is
ever returned to the caller. -/
def load_app_settings (env : Option String) : SettingsFile → AppSettings
  | SettingsFile.missing => defaultAppSettings env
  | SettingsFile.present none => defaultAppSettings env
  | SettingsFile.present (some s) => s

/-! ## Latency colour classification (src/ui.rs) -/

/-- The ratatui colours used by the latency classification sites. -/
inductive UiColor where
  | green
  | yellow
  | red
  | gray
  deriving DecidableEq, Repr

/-- Latency colour in `draw_proxies`, src/ui.rs lines 114-120:
green if ms < 200, yellow if ms < 500, red otherwise. -/
def proxy_latency_color (ms : Nat) : UiColor :=
  if ms < 200 then UiColor.green
  else if ms < 500 then UiColor.yellow
  else UiColor.red

/-- Latency colour in `draw_overview`, src/ui.rs lines 216-222:
same three-way split as in `draw_proxies`. -/
def overview_latency_color (ms : Nat) : UiColor :=
  if ms < 200 then UiColor.green
  else if ms < 500 then UiColor.yellow
  else UiColor.red

/-! ## JSON values and requests (src/app.rs control-client operations) -/

/-- Minimal model of `serde_json::Value`, used for request bodies and
the flattened `extra` fields of `ProxyItem`. -/
inductive Json where
  | null
  | bool (b : Bool)
  | num (n : Int)
  | str (s : String)
  | arr (elems : List Json)
  | obj (fields : List (String × Json))

/-- HTTP methods used by the client. -/
inductive HttpMethod where
  | GET
  | PATCH
  | PUT
  | HEAD
  deriving DecidableEq, Repr

/-- The observable shape of a reqwest request as built by the client:
method, URL, optional bearer-auth credential, optional per-request
timeout in milliseconds, optional JSON body. -/
structure Request where
  method : HttpMethod
  url : String
  bearer : Option String
  timeout_ms : Option Nat
  body : Option Json

/-- Request built by `App::fetch_proxies` (src/app.rs lines 282-287):
GET {base_url}/proxies, bearer auth attached iff the configured
api_secret is non-empty. -/
def fetch_proxies_request (s : AppSettings) : Request :=
  let r : Request :=
    { method := HttpMethod.GET, url := s.base_url ++ "/proxies"
      bearer := none, timeout_ms := none, body := none }
  if s.api_secret ≠ "" then { r with bearer := some s.api_secret } else r

/-- Request built by `App::fetch_config` (src/app.rs lines 316-320):
GET {base_url}/configs, bearer auth iff api_secret non-empty. -/
def fetch_config_request (s : AppSettings) : Request :=
  let r : Request :=
    { method := HttpMethod.GET, url := s.base_url ++ "/configs"
      bearer := none, timeout_ms := none, body := none }
  if s.api_secret ≠ "" then { r with bearer := some s.api_secret } else r

/-- Request built by `App::update_config` (src/app.rs lines 268-273):
PATCH {base_url}/configs with the given JSON body, bearer auth iff
api_secret non-empty. -/
def update_config_request (s : AppSettings) (json_body : Json) : Request :=
  let r : Request :=
    { method := HttpMethod.PATCH, url := s.base_url ++ "/configs"
      bearer := none, timeout_ms := none, body := some json_body }
  if s.api_secret ≠ "" then { r with bearer := some s.api_secret } else r

/-- Request built by `App::select_proxy` (src/app.rs lines 371-377):
PUT {base_url}/proxies/{group} with body { "name": proxy }, bearer auth
iff api_secret non-empty. -/
def select_proxy_request (s : AppSettings) (group proxy : String) : Request :=
  let r : Request :=
    { method := HttpMethod.PUT, url := s.base_url ++ "/proxies/" ++ group
      bearer := none, timeout_ms := none
      body := some (Json.obj [("name", Json.str proxy)]) }
  if s.api_secret ≠ "" then { r with bearer := some s.api_secret } else r

/-- Request built by the probe task spawned in
`App::trigger_latency_test` (src/app.rs lines 340-344):
HEAD {test_url} with a per-request timeout of test_timeout
milliseconds.  No bearer auth is ever attached to this request. -/
def probe_request (s : AppSettings) : Request :=
  { method := HttpMethod.HEAD, url := s.test_url
    bearer := none, timeout_ms := some s.test_timeout, body := none }

/-! ## Probe result classification (src/app.rs lines 336-367) -/

/-- `LatencyStatus` from src/app.rs lines 89-95. -/
inductive LatencyStatus where
  | pending
  | testing
  | success (ms : Nat)
  | failed (reason : String)
  deriving DecidableEq, Repr

/-- Completion of the probe's `send()`: either a response with an HTTP
status code, or a reqwest error carrying its `is_timeout()` and
`is_connect()` flags. -/
inductive ProbeOutcome where
  | response (status : Nat)
  | error (is_timeout is_connect : Bool)
  deriving DecidableEq, Repr

/-- `resp.status().is_success()`: the status code is in 200..=299. -/
def status_is_success (st : Nat) : Prop := 200 ≤ st ∧ st < 300

instance : DecidablePred status_is_success := fun st =>
  inferInstanceAs (Decidable (200 ≤ st ∧ st < 300))

/-- `resp.status().is_redirection()`: the status code is in 300..=399. -/
def status_is_redirection (st : Nat) : Prop := 300 ≤ st ∧ st < 400

instance : DecidablePred status_is_redirection := fun st =>
  inferInstanceAs (Decidable (300 ≤ st ∧ st < 400))

/-- The message the spawned probe task sends on the latency channel
(src/app.rs lines 346-365), given the elapsed wall time in ms and the
outcome of the HEAD request: Success(elapsed) on a 2xx/3xx response,
Failed("Status: …") on any other response, and Failed with "Timeout" /
"Conn Err" / "Error" on an error, tested in that order. -/
def probe_result (elapsed : Nat) : ProbeOutcome → LatencyStatus
  | ProbeOutcome.response st =>
      if status_is_success st ∨ status_is_redirection st then
        LatencyStatus.success elapsed
      else
        LatencyStatus.failed ("Status: " ++ toString st)
  | ProbeOutcome.error t c =>
      LatencyStatus.failed (if t then "Timeout" else if c then "Conn Err" else "Error")

/-! ## Application state and the fetch / update transitions (src/app.rs) -/

/-- `ProxyItem` from src/app.rs lines 34-43; the serde-flattened
`extra` map is modelled as an association list of JSON values. -/
structure ProxyItem where
  name : Option String
  proxy_type : Option String
  now : Option String
  all : Option (List String)
  extra : List (String × Json)

/-- `Tun` from src/app.rs lines 11-17. -/
structure Tun where
  enable : Bool
  stack : Option String
  device : Option String
  deriving DecidableEq, Repr

/-- `Config` from src/app.rs lines 19-32 (mixed_port is a u16,
modelled as Nat). -/
structure Config where
  mode : String
  tun : Tun
  mixed_port : Nat
  log_level : String
  allow_lan : Bool
  bind_address : String
  ipv6 : Bool
  deriving DecidableEq, Repr

/-- The fragment of `App` (src/app.rs lines 121-148) read and written
by the fetch and update operations: the proxies map (modelled as an
association list in place of the HashMap), the derived sorted group
names, the cached config snapshot, and the latest-error string. -/
structure AppState where
  proxies : List (String × ProxyItem)
  group_names : List String
  config : Option Config
  error : Option String

/-- The outcome of `request.send().await` together with what parsing
the body would yield: `err msg` is a connection-level reqwest error,
`ok status body` is a response whose status code is `status` and whose
body parses as `body`. -/
inductive SendResult (β : Type) where
  | err (msg : String)
  | ok (status : Nat) (body : β)

/-- The group-name recomputation inside `App::fetch_proxies`
(src/app.rs lines 295-301): names of the proxies whose type is
"Selector", sorted. -/
def compute_group_names (proxies : List (String × ProxyItem)) : List String :=
  (((proxies.map Prod.snd).filter
      (fun p => p.proxy_type == some "Selector")).filterMap
      (fun p => p.name)).mergeSort (fun a b => a ≤ b)

/-- `App::fetch_proxies` from src/app.rs lines 281-313, as a function
of the network outcome.  Every branch stores an outcome in the state
and returns `Ok(())`: a connection error, a non-2xx status and a parse
failure each set the latest-error string and leave the proxies map and
group names unchanged; a parsed 2xx response replaces the proxies map,
recomputes the group names and clears the error. -/
def fetch_proxies_step (st : AppState) :
    SendResult (Except String (List (String × ProxyItem))) →
      AppState × Except String Unit
  | SendResult.err m =>
      ({ st with error := some ("Failed to connect: " ++ m) }, Except.ok ())
  | SendResult.ok status body =>
      if status_is_success status then
        match body with
        | Except.ok data =>
            ({ st with
                proxies := data
                group_names := compute_group_names data
                error := none }, Except.ok ())
        | Except.error m =>
            ({ st with error := some ("Failed to parse JSON: " ++ m) }, Except.ok ())
      else
        ({ st with error := some ("Server returned error: " ++ toString status) },
          Except.ok ())

/-- `App::fetch_config` from src/app.rs lines 315-326, as a function of
the network outcome.  A connection error propagates through `?` as
`Err` without touching the state; on a 2xx response the body is parsed
and either replaces the config snapshot or propagates the parse error
through `?`; a non-2xx response is silently ignored.  The latest-error
string is never written. -/
def fetch_config_step (st : AppState) :
    SendResult (Except String Config) → AppState × Except String Unit
  | SendResult.err m => (st, Except.error m)
  | SendResult.ok status body =>
      if status_is_success status then
        match body with
        | Except.ok cfg => ({ st with config := some cfg }, Except.ok ())
        | Except.error m => (st, Except.error m)
      else
        (st, Except.ok ())

/-- `App::update_config` from src/app.rs lines 267-279, as a function
of the two network outcomes: the PATCH send (whose status code is never
inspected — only a connection-level error propagates through `?`) and
the follow-up `fetch_config` outcome.  The state is never written from
the patch request or its response; the only state change is the one
performed by `fetch_config_step`. -/
def update_config_step (st : AppState) (json_body : Json)
    (patch : SendResult Unit) (fetch : SendResult (Except String Config)) :
    AppState × Except String Unit :=
  match patch with
  | SendResult.err m => (st, Except.error m)
  | SendResult.ok _ _ => fetch_config_step st fetch

/-! ## Traffic ring buffers (App::on_traffic)

`App::on_traffic` is called from src/main.rs line 70 and its history
buffers are read in src/ui.rs lines 249-288, but its definition is not
part of the source snapshot under src/. -/

/-- `TrafficSample`: the per-tick download/upload byte counters pushed
on the traffic channel (drained in src/main.rs lines 69-71). -/
structure TrafficSample where
  down : Nat
  up : Nat
  deriving DecidableEq, Repr

/-- The traffic fields of `App` read by `draw_overview`
(src/ui.rs lines 249-288): current download/upload rate and the two
history buffers. -/
structure TrafficState where
  current_down : Nat
  current_up : Nat
  history_down : List Nat
  history_up : List Nat
  deriving DecidableEq, Repr

/-- Modelled from the spec: the ring-buffer insertion used by
`App::on_traffic`, whose definition is missing from src/ (only its
call site in src/main.rs and the buffers' readers in src/ui.rs are
present).  Per spec §3/§4.3, the buffer has fixed capacity C and
insertion evicts the oldest sample when full (strict FIFO): push the
new value at the back, then drop the front element if the length
exceeds C. -/
def ring_push (C : Nat) (buf : List Nat) (x : Nat) : List Nat :=
  let b := buf ++ [x]
  if C < b.length then b.tail else b

/-- Modelled from the spec: `App::on_traffic` (called at src/main.rs
line 70; definition missing from src/).  Per spec §4.3, each incoming
`TrafficSample` is appended to the download and upload ring buffers of
capacity C and exposed as the instantaneous rate. -/
def on_traffic (C : Nat) (st : TrafficState) (t : TrafficSample) : TrafficState :=
  { current_down := t.down
    current_up := t.up
    history_down := ring_push C st.history_down t.down
    history_up := ring_push C st.history_up t.up }

/-- The initial traffic state: empty history, zero rates. -/
def initTraffic : TrafficState :=
  { current_down := 0, current_up := 0, history_down := [], history_up := [] }

/-! ## The event-loop channel drains (src/main.rs lines 58-71) -/

/-- The fields of `App` written by the channel drains at the top of
`run_app` (src/main.rs lines 58-71): the single-target latency status,
the per-proxy latency map (HashMap modelled as an association list),
and the traffic fields. -/
structure LoopState where
  real_latency_status : LatencyStatus
  proxy_latency : List (String × Option Nat)
  traffic : TrafficState
  deriving DecidableEq, Repr

/-- The messages pending on the three channels at the start of a tick,
in arrival order. -/
structure Channels where
  real_latency : List LatencyStatus
  proxy_test : List (String × Nat)
  traffic_ch : List TrafficSample
  deriving DecidableEq, Repr

/-- `HashMap::insert`: replace the value under an existing key,
otherwise append the new binding. -/
def insert_assoc (m : List (String × Option Nat)) (k : String) (v : Option Nat) :
    List (String × Option Nat) :=
  if m.any (fun p => p.1 == k) then
    m.map (fun p => if p.1 == k then (k, v) else p)
  else
    m ++ [(k, v)]

/-- One drained fan-out message, src/main.rs lines 64-66:
`app.proxy_latency.insert(name, Some(latency))`. -/
def apply_proxy_result (s : LoopState) (p : String × Nat) : LoopState :=
  { s with proxy_latency := insert_assoc s.proxy_latency p.1 (some p.2) }

/-- One drained traffic message, src/main.rs lines 69-71:
`app.on_traffic(traffic)`. -/
def apply_traffic (C : Nat) (s : LoopState) (t : TrafficSample) : LoopState :=
  { s with traffic := on_traffic C s.traffic t }

/-- The channel-drain phase of one `run_app` tick (src/main.rs lines
58-71): `if let Ok(status) = real_latency_rx.try_recv()` consumes at
most ONE message from the single-target latency channel;
`while let Ok(..)` loops consume every pending message from the
fan-out proxy-test channel and from the traffic channel.  Returns the
updated state together with what is still pending on each channel. -/
def tick_drain (C : Nat) (st : LoopState) (ch : Channels) : LoopState × Channels :=
  let step1 : LoopState × List LatencyStatus :=
    match ch.real_latency with
    | [] => (st, [])
    | m :: rest => ({ st with real_latency_status := m }, rest)
  let st2 := ch.proxy_test.foldl apply_proxy_result step1.1
  let st3 := ch.traffic_ch.foldl (apply_traffic C) st2
  (st3, { real_latency := step1.2, proxy_test := [], traffic_ch := [] })

/-! ## Probe trigger / delivery traces (src/app.rs lines 328-368 and
src/main.rs lines 58-61) -/

/-- The single-target latency subsystem state.  `generation` is ghost
bookkeeping counting the triggers so far — the source keeps no such
counter and tags no message with it; `latency_status` is the displayed
status field. -/
structure ProbeLoopState where
  generation : Nat
  latency_status : LatencyStatus
  deriving DecidableEq, Repr

/-- Events of the single-target probe subsystem: a user trigger
(`App::trigger_latency_test`, src/app.rs lines 328-368), or the
draining of the completion message of the probe started by the g-th
trigger (src/main.rs lines 59-61). -/
inductive ProbeEvent where
  | trigger
  | deliver (g : Nat)
  deriving DecidableEq, Repr

/-- One step of the probe subsystem, given the eventual result `res g`
of the probe started by the g-th trigger.  A trigger sets the status
to Testing (src/app.rs line 334) and starts probe number
generation+1; a drained completion message is applied to the status
unconditionally (src/main.rs lines 59-61) — the source performs no
staleness check of any kind. -/
def probe_step (res : Nat → LatencyStatus) (s : ProbeLoopState) :
    ProbeEvent → ProbeLoopState
  | ProbeEvent.trigger =>
      { generation := s.generation + 1, latency_status := LatencyStatus.testing }
  | ProbeEvent.deliver g =>
      { s with latency_status := res g }

/-- A run of the probe subsystem from the initial state
(latency_status starts Pending, src/app.rs line 180). -/
def probe_run (res : Nat → LatencyStatus) (evs : List ProbeEvent) : ProbeLoopState :=
  evs.foldl (probe_step res) { generation := 0, latency_status := LatencyStatus.pending }

/-! ## Group navigation (src/app.rs lines 384-412) -/

/-- The fragment of `App` used by the group navigation helpers: the
group-name list and the selected indices of the group and proxy
`ListState`s. -/
structure NavState where
  group_names : List String
  group_selected : Option Nat
  proxy_selected : Option Nat
  deriving DecidableEq, Repr

/-- `App::next_group` from src/app.rs lines 384-397.  With a selected
index the code evaluates `group_names.len() - 1`; on an empty list this
is an unguarded underflow of an unsigned subtraction, modelled as
`none` (the debug-mode panic).  Otherwise it wraps past the last index
to 0, steps forward by one below it, and resets the proxy selection. -/
def next_group (s : NavState) : Option NavState :=
  match s.group_selected with
  | some i =>
      match s.group_names.length with
      | 0 => none
      | n + 1 =>
          some { s with
                  group_selected := some (if i ≥ n then 0 else i + 1)
                  proxy_selected := some 0 }
  | none =>
      some { s with group_selected := some 0, proxy_selected := some 0 }

/-- `App::previous_group` from src/app.rs lines 399-412.  The code
evaluates `group_names.len() - 1` only in the `i == 0` branch; on an
empty list that branch underflows (`none`), while `i > 0` steps back by
one without touching the length.  The proxy selection is reset in every
non-panicking case. -/
def previous_group (s : NavState) : Option NavState :=
  match s.group_selected with
  | some i =>
      if i = 0 then
        match s.group_names.length with
        | 0 => none
        | n + 1 =>
            some { s with group_selected := some n, proxy_selected := some 0 }
      else
        some { s with group_selected := some (i - 1), proxy_selected := some 0 }
  | none =>
      some { s with group_selected := some 0, proxy_selected := some 0 }

/-! ## Shared helper lemmas and sample values -/

/-- A concrete config snapshot used by several concrete instantiations. -/
def sampleConfig : Config :=
  { mode := "rule", tun := { enable := false, stack := none, device := none }
    mixed_port := 7890, log_level := "info", allow_lan := false
    bind_address := "*", ipv6 := false }

/-- The initial app state (src/app.rs lines 177-197): empty proxies,
no config yet, no error. -/
def sampleState : AppState :=
  { proxies := [], group_names := [], config := none, error := none }

/-- An app state after a prior successful config fetch. -/
def fetchedState : AppState :=
  { proxies := [], group_names := [], config := some sampleConfig, error := none }

theorem ring_push_length_le (C : Nat) (buf : List Nat) (x : Nat)
    (h : buf.length ≤ C) : (ring_push C buf x).length ≤ C := by
  show (if C < (buf ++ [x]).length then (buf ++ [x]).tail else buf ++ [x]).length ≤ C
  split
  · simpa using h
  · simp only [List.length_append, List.length_cons, List.length_nil] at *
    omega

theorem on_traffic_fold_bound (C : Nat) (samples : List TrafficSample)
    (st : TrafficState) (hd : st.history_down.length ≤ C)
    (hu : st.history_up.length ≤ C) :
    (samples.foldl (on_traffic C) st).history_down.length ≤ C ∧
    (samples.foldl (on_traffic C) st).history_up.length ≤ C := by
  induction samples generalizing st with
  | nil => exact ⟨hd, hu⟩
  | cons t ts ih =>
      exact ih (on_traffic C st t)
        (ring_push_length_le C st.history_down t.down hd)
        (ring_push_length_le C st.history_up t.up hu)

theorem ring_push_evicts_oldest (C : Nat) (buf : List Nat) (x : Nat)
    (hC : 0 < C) (hfull : buf.length = C) :
    ring_push C buf x = buf.tail ++ [x] := by
  cases buf with
  | nil => simp at hfull; omega
  | cons a l =>
      show (if C < (a :: l ++ [x]).length then (a :: l ++ [x]).tail else a :: l ++ [x])
          = (a :: l).tail ++ [x]
      rw [if_pos]
      · rfl
      · simp only [List.length_append, List.length_cons, List.length_nil] at *
        omega

theorem foldl_proxy_results_status (l : List (String × Nat)) (s : LoopState) :
    (l.foldl apply_proxy_result s).real_latency_status = s.real_latency_status := by
  induction l generalizing s with
  | nil => rfl
  | cons p l ih => exact ih (apply_proxy_result s p)

theorem foldl_traffic_status (C : Nat) (l : List TrafficSample) (s : LoopState) :
    (l.foldl (apply_traffic C) s).real_latency_status = s.real_latency_status := by
  induction l generalizing s with
  | nil => rfl
  | cons t l ih => exact ih (apply_traffic C s t)

/-! ## Claim theorems -/

/-- Claim C8: for every missing or unparsable settings file, loading
settings returns the defaults — baseUrl "http://127.0.0.1:9090",
testTimeoutMs 3000, testUrl "https://www.google.com", the secret taken
from the environment variable or the fixed fallback "mihomo" — and no
error is raised to the caller (`load_app_settings` is total). -/
theorem C8_settings_fallback (env : Option String) (f : SettingsFile)
    (h : f = SettingsFile.missing ∨ f = SettingsFile.present none) :
    load_app_settings env f =
      { base_url := "http://127.0.0.1:9090"
        api_secret := env.getD "mihomo"
        test_url := "https://www.google.com"
        test_timeout := 3000 } := by
  rcases h with h | h <;> subst h <;> rfl

/-- Witness for C8: a missing settings file with no MIHOMO_SECRET in
the environment yields exactly the built-in defaults. -/
theorem C8_witness :
    (SettingsFile.missing = SettingsFile.missing ∨
      SettingsFile.missing = SettingsFile.present none) ∧
    load_app_settings none SettingsFile.missing =
      { base_url := "http://127.0.0.1:9090", api_secret := "mihomo"
        test_url := "https://www.google.com", test_timeout := 3000 } :=
  ⟨Or.inl rfl, C8_settings_fallback none SettingsFile.missing (Or.inl rfl)⟩

/-- Claim C9: both latency display sites classify a measured value ms
as green exactly when ms < 200, yellow exactly when 200 ≤ ms < 500 and
red exactly when ms ≥ 500; in particular 199 is green, 200 and 499 are
yellow, and 500 is red. -/
theorem C9_latency_classification (ms : Nat) :
    (proxy_latency_color ms = UiColor.green ↔ ms < 200) ∧
    (proxy_latency_color ms = UiColor.yellow ↔ 200 ≤ ms ∧ ms < 500) ∧
    (proxy_latency_color ms = UiColor.red ↔ 500 ≤ ms) ∧
    overview_latency_color ms = proxy_latency_color ms ∧
    proxy_latency_color 199 = UiColor.green ∧
    proxy_latency_color 200 = UiColor.yellow ∧
    proxy_latency_color 499 = UiColor.yellow ∧
    proxy_latency_color 500 = UiColor.red := by
  refine ⟨?_, ?_, ?_, rfl, by decide, by decide, by decide, by decide⟩ <;>
    · unfold proxy_latency_color
      split_ifs <;> simp_all <;> omega

/-- Claim C7: the probe issues a HEAD request against the configured
test URL with a hard per-request timeout of test_timeout milliseconds;
its result is Success(elapsed) exactly when the response status is 2xx
or 3xx, and every error is classified as exactly one of "Timeout",
"Conn Err" or "Error" according to the reqwest error flags (timeout
checked first, then connect). -/
theorem C7_probe_contract (s : AppSettings) (elapsed st : Nat) (t c : Bool) :
    (probe_request s).method = HttpMethod.HEAD ∧
    (probe_request s).url = s.test_url ∧
    (probe_request s).timeout_ms = some s.test_timeout ∧
    (probe_result elapsed (ProbeOutcome.response st) = LatencyStatus.success elapsed ↔
      status_is_success st ∨ status_is_redirection st) ∧
    (probe_result elapsed (ProbeOutcome.error t c) = LatencyStatus.failed "Timeout" ↔
      t = true) ∧
    (probe_result elapsed (ProbeOutcome.error t c) = LatencyStatus.failed "Conn Err" ↔
      t = false ∧ c = true) ∧
    (probe_result elapsed (ProbeOutcome.error t c) = LatencyStatus.failed "Error" ↔
      t = false ∧ c = false) := by
  refine ⟨rfl, rfl, rfl, ?_, ?_, ?_, ?_⟩
  · unfold probe_result
    split <;> simp_all <;> tauto
  all_goals cases t <;> cases c <;> simp [probe_result]

/-- Claim C1 (code bug): the spec requires a result from probe
generation G, delivered after generation G+1 was triggered, to be
discarded.  The source tags no probe message with a generation and the
event loop applies every drained message unconditionally: after
triggering twice and then draining the FIRST trigger's completion
(Success 999), the displayed status is generation 1's Success 999 even
though the current generation is 2. -/
theorem C1_stale_result_applied :
    (probe_run
        (fun g => if g = 1 then LatencyStatus.success 999 else LatencyStatus.success 5)
        [ProbeEvent.trigger, ProbeEvent.trigger, ProbeEvent.deliver 1]).latency_status
      = LatencyStatus.success 999 ∧
    (probe_run
        (fun g => if g = 1 then LatencyStatus.success 999 else LatencyStatus.success 5)
        [ProbeEvent.trigger, ProbeEvent.trigger, ProbeEvent.deliver 1]).generation = 2 :=
  ⟨rfl, rfl⟩

/-- Claim C6 counterexample: with the default settings the configured
api_secret "mihomo" is non-empty, yet the reachability-probe request
built by `trigger_latency_test` carries no Authorization header — so
the claim's "for every network operation … if and only if" fails at
the probe operation. -/
theorem C6_counterexample :
    (defaultAppSettings none).api_secret ≠ "" ∧
    (probe_request (defaultAppSettings none)).bearer = none :=
  ⟨by decide, rfl⟩

/-- Claim C6 as amended: the four control-API operations
(fetch_proxies, fetch_config, update_config, select_proxy) attach the
bearer credential exactly when the configured api_secret is non-empty,
and when attached it is the secret itself; the reachability probe
never attaches an Authorization header. -/
theorem C6_amended_bearer_policy (s : AppSettings) (body : Json) (g p : String) :
    ((fetch_proxies_request s).bearer.isSome ↔ s.api_secret ≠ "") ∧
    ((fetch_config_request s).bearer.isSome ↔ s.api_secret ≠ "") ∧
    ((update_config_request s body).bearer.isSome ↔ s.api_secret ≠ "") ∧
    ((select_proxy_request s g p).bearer.isSome ↔ s.api_secret ≠ "") ∧
    (s.api_secret ≠ "" →
      (fetch_proxies_request s).bearer = some s.api_secret ∧
      (fetch_config_request s).bearer = some s.api_secret ∧
      (update_config_request s body).bearer = some s.api_secret ∧
      (select_proxy_request s g p).bearer = some s.api_secret) ∧
    (probe_request s).bearer = none := by
  unfold fetch_proxies_request fetch_config_request update_config_request
    select_proxy_request probe_request
  by_cases h : s.api_secret = "" <;> simp [h]

/-- Witness for C6 (amended): with a non-empty secret the proxies
request carries it and the probe request still carries nothing. -/
theorem C6_witness :
    (probe_request { base_url := "http://127.0.0.1:9090", api_secret := "mihomo"
                     test_url := "https://www.google.com", test_timeout := 3000 }).bearer
      = none ∧
    (fetch_proxies_request
        { base_url := "http://127.0.0.1:9090", api_secret := "mihomo"
          test_url := "https://www.google.com", test_timeout := 3000 }).bearer
      = some "mihomo" :=
  ⟨(C6_amended_bearer_policy
      { base_url := "http://127.0.0.1:9090", api_secret := "mihomo"
        test_url := "https://www.google.com", test_timeout := 3000 }
      Json.null "g" "p").2.2.2.2.2,
    ((C6_amended_bearer_policy
        { base_url := "http://127.0.0.1:9090", api_secret := "mihomo"
          test_url := "https://www.google.com", test_timeout := 3000 }
        Json.null "g" "p").2.2.2.2.1 (by decide)).1⟩

/-- Claim C2: whenever `update_config` returns success, the cached
config snapshot afterwards is exactly the one produced by the
mandatory follow-up `fetch_config` on the same fetch outcome, and the
resulting state is independent of the patch body and of the patch
response — the cache is never mutated from the patch itself. -/
theorem C2_confirm_by_refetch (st : AppState) (body : Json) (p : SendResult Unit)
    (f : SendResult (Except String Config))
    (h : (update_config_step st body p f).2 = Except.ok ()) :
    (update_config_step st body p f).1.config = (fetch_config_step st f).1.config ∧
    ∀ (body2 : Json) (p2 : SendResult Unit),
      (update_config_step st body2 p2 f).2 = Except.ok () →
      (update_config_step st body2 p2 f).1 = (update_config_step st body p f).1 := by
  cases p with
  | err m => exact absurd h (by simp [update_config_step])
  | ok s b =>
      refine ⟨rfl, ?_⟩
      intro body2 p2 h2
      cases p2 with
      | err m => exact absurd h2 (by simp [update_config_step])
      | ok s2 b2 => rfl

/-- Witness for C2: a successful patch followed by a successful 200
fetch leaves the cache equal to what the fetch alone produces. -/
theorem C2_witness :
    (update_config_step sampleState Json.null (SendResult.ok 204 ())
        (SendResult.ok 200 (Except.ok sampleConfig))).1.config
      = (fetch_config_step sampleState
          (SendResult.ok 200 (Except.ok sampleConfig))).1.config :=
  (C2_confirm_by_refetch sampleState Json.null (SendResult.ok 204 ())
      (SendResult.ok 200 (Except.ok sampleConfig)) rfl).1

/-- Claim C3 counterexample: after a prior successful config fetch, a
connection-failing `fetch_config` leaves the snapshot in place but
does NOT convert the failure into the latest-error string (the error
field stays none) and the operation returns Err through `?` instead of
returning cleanly. -/
theorem C3_counterexample :
    (fetch_config_step fetchedState (SendResult.err "connection refused")).1.config
      = some sampleConfig ∧
    (fetch_config_step fetchedState (SendResult.err "connection refused")).1.error
      = none ∧
    (fetch_config_step fetchedState (SendResult.err "connection refused")).2
      ≠ Except.ok () := by
  refine ⟨rfl, rfl, ?_⟩
  intro h
  exact Except.noConfusion h

/-- Claim C3 as amended: every failing fetch leaves the previously
stored snapshot unchanged, but only `fetch_proxies` converts the
failure into the latest-error string and returns Ok in all three
failure modes (connection error, non-2xx status, parse failure);
`fetch_config` never writes the error string — a connection or parse
failure propagates Err to the caller (who discards it, so the event
loop is not terminated) and a non-2xx response is silently ignored. -/
theorem C3_amended_failure_handling (st : AppState) (m : String) (status : Nat)
    (data : List (String × ProxyItem)) (b : Except String Config)
    (hfail : ¬ status_is_success status) :
    ((fetch_proxies_step st (SendResult.err m)).1.proxies = st.proxies ∧
      (fetch_proxies_step st (SendResult.err m)).1.group_names = st.group_names ∧
      (fetch_proxies_step st (SendResult.err m)).1.error
        = some ("Failed to connect: " ++ m) ∧
      (fetch_proxies_step st (SendResult.err m)).2 = Except.ok ()) ∧
    ((fetch_proxies_step st (SendResult.ok status (Except.ok data))).1.proxies
        = st.proxies ∧
      (fetch_proxies_step st (SendResult.ok status (Except.ok data))).1.group_names
        = st.group_names ∧
      (fetch_proxies_step st (SendResult.ok status (Except.ok data))).1.error
        = some ("Server returned error: " ++ toString status) ∧
      (fetch_proxies_step st (SendResult.ok status (Except.ok data))).2
        = Except.ok ()) ∧
    ((fetch_proxies_step st (SendResult.ok 200 (Except.error m))).1.proxies
        = st.proxies ∧
      (fetch_proxies_step st (SendResult.ok 200 (Except.error m))).1.group_names
        = st.group_names ∧
      (fetch_proxies_step st (SendResult.ok 200 (Except.error m))).1.error
        = some ("Failed to parse JSON: " ++ m) ∧
      (fetch_proxies_step st (SendResult.ok 200 (Except.error m))).2
        = Except.ok ()) ∧
    (fetch_config_step st (SendResult.err m) = (st, Except.error m)) ∧
    (fetch_config_step st (SendResult.ok 200 (Except.error m))
      = (st, Except.error m)) ∧
    (fetch_config_step st (SendResult.ok status b) = (st, Except.ok ())) := by
  refine ⟨⟨rfl, rfl, rfl, rfl⟩, ?_, ⟨rfl, rfl, rfl, rfl⟩, rfl, rfl, ?_⟩
  · dsimp only [fetch_proxies_step]
    rw [if_neg hfail]
    exact ⟨rfl, rfl, rfl, rfl⟩
  · dsimp only [fetch_config_step]
    rw [if_neg hfail]

/-- Witness for C3 (amended): a 500 response on the config fetch after
startup leaves the state untouched and returns Ok silently, and the
same failing status on the proxies fetch records the error string. -/
theorem C3_witness :
    (¬ status_is_success 500) ∧
    fetch_config_step sampleState (SendResult.ok 500 (Except.ok sampleConfig))
      = (sampleState, Except.ok ()) ∧
    (fetch_proxies_step sampleState (SendResult.ok 500 (Except.ok []))).1.error
      = some ("Server returned error: " ++ toString 500) :=
  ⟨by decide,
    (C3_amended_failure_handling sampleState "x" 500 [] (Except.ok sampleConfig)
        (by decide)).2.2.2.2.2,
    (C3_amended_failure_handling sampleState "x" 500 [] (Except.ok sampleConfig)
        (by decide)).2.1.2.2.1⟩

/-- Claim C4 counterexample: with two results pending on the
single-target latency channel at the start of a tick, the drain phase
consumes only the first — the second message is still pending on the
channel when the tick ends, so the channel is not drained completely. -/
theorem C4_counterexample :
    ((tick_drain 10
        { real_latency_status := LatencyStatus.pending, proxy_latency := []
          traffic := initTraffic }
        { real_latency := [LatencyStatus.success 10, LatencyStatus.success 20]
          proxy_test := [], traffic_ch := [] }).2.real_latency
      = [LatencyStatus.success 20]) ∧
    (tick_drain 10
        { real_latency_status := LatencyStatus.pending, proxy_latency := []
          traffic := initTraffic }
        { real_latency := [LatencyStatus.success 10, LatencyStatus.success 20]
          proxy_test := [], traffic_ch := [] }).1.real_latency_status
      = LatencyStatus.success 10 :=
  ⟨rfl, rfl⟩

/-- Claim C4 as amended: in every tick the fan-out proxy-latency
channel and the traffic channel are drained completely, while the
single-target latency channel yields at most one message per tick —
the head message (if any) becomes the displayed status and the rest
stay pending for later ticks. -/
theorem C4_amended_drain (C : Nat) (st : LoopState) (ch : Channels) :
    (tick_drain C st ch).2.proxy_test = [] ∧
    (tick_drain C st ch).2.traffic_ch = [] ∧
    (tick_drain C st ch).2.real_latency = ch.real_latency.drop 1 ∧
    (tick_drain C st ch).1.real_latency_status
      = ch.real_latency.headD st.real_latency_status := by
  obtain ⟨rl, pt, tc⟩ := ch
  cases rl <;>
    simp [tick_drain, foldl_traffic_status, foldl_proxy_results_status]

/-- Claim C5: for every sequence of ingested traffic samples, the
download and upload history buffers never exceed the configured
capacity C, and inserting into a full buffer evicts exactly the oldest
sample (strict FIFO). -/
theorem C5_ring_buffer_bound (C : Nat) (samples : List TrafficSample)
    (buf : List Nat) (x : Nat) (hC : 0 < C) (hfull : buf.length = C) :
    (samples.foldl (on_traffic C) initTraffic).history_down.length ≤ C ∧
    (samples.foldl (on_traffic C) initTraffic).history_up.length ≤ C ∧
    ring_push C buf x = buf.tail ++ [x] := by
  obtain ⟨h1, h2⟩ := on_traffic_fold_bound C samples initTraffic
    (by simp [initTraffic]) (by simp [initTraffic])
  exact ⟨h1, h2, ring_push_evicts_oldest C buf x hC hfull⟩

/-- Witness for C5: with capacity 2, three ingested samples keep the
download history at length ≤ 2, and pushing into the full buffer
[7, 8] evicts the oldest element 7. -/
theorem C5_witness :
    0 < 2 ∧ ([7, 8] : List Nat).length = 2 ∧
    (([⟨1, 2⟩, ⟨3, 4⟩, ⟨5, 6⟩] : List TrafficSample).foldl (on_traffic 2)
        initTraffic).history_down.length ≤ 2 ∧
    ring_push 2 [7, 8] 9 = ([7, 8] : List Nat).tail ++ [9] :=
  ⟨by decide, by decide,
    (C5_ring_buffer_bound 2 [⟨1, 2⟩, ⟨3, 4⟩, ⟨5, 6⟩] [7, 8] 9
        (by decide) (by decide)).1,
    (C5_ring_buffer_bound 2 [⟨1, 2⟩, ⟨3, 4⟩, ⟨5, 6⟩] [7, 8] 9
        (by decide) (by decide)).2.2⟩

/-- Claim C10 counterexample: on an empty group list with selected
index 1, `previous_group` takes the `i != 0` branch and never
evaluates `group_names.len() - 1` — it returns normally (selecting
index 0) instead of underflowing, refuting the claim that BOTH
operations underflow for every selected index. -/
theorem C10_counterexample :
    previous_group
        { group_names := [], group_selected := some 1, proxy_selected := some 0 }
      = some { group_names := [], group_selected := some 0, proxy_selected := some 0 } :=
  rfl

/-- Claim C10 as amended: on an empty group list, `next_group` hits
the unguarded `len() - 1` underflow for every selected index, while
`previous_group` hits it exactly when the selected index is 0; on a
non-empty list both wrap cyclically (past the last index to 0, before
index 0 to the last index) and reset the proxy selection to index 0. -/
theorem C10_amended_navigation (s : NavState) (i : Nat) :
    (s.group_names = [] → s.group_selected = some i → next_group s = none) ∧
    (s.group_names = [] → (previous_group s = none ↔ s.group_selected = some 0)) ∧
    (s.group_names ≠ [] → s.group_selected = some i →
      ((s.group_names.length - 1 ≤ i →
          next_group s
            = some { s with group_selected := some 0, proxy_selected := some 0 }) ∧
        (i < s.group_names.length - 1 →
          next_group s
            = some { s with group_selected := some (i + 1), proxy_selected := some 0 }) ∧
        (i = 0 →
          previous_group s
            = some { s with group_selected := some (s.group_names.length - 1)
                            proxy_selected := some 0 }) ∧
        (0 < i →
          previous_group s
            = some { s with group_selected := some (i - 1)
                            proxy_selected := some 0 }))) := by
  obtain ⟨gns, gsel, psel⟩ := s
  refine ⟨?_, ?_, ?_⟩
  · intro hempty hsel
    subst hempty; subst hsel
    rfl
  · intro hempty
    subst hempty
    cases gsel with
    | none => simp [previous_group]
    | some j =>
        cases j with
        | zero => simp [previous_group]
        | succ k => simp [previous_group]
  · intro hne hsel
    subst hsel
    cases gns with
    | nil => exact absurd rfl hne
    | cons a l =>
        refine ⟨?_, ?_, ?_, ?_⟩ <;> intro hcond
        · have h2 : i ≥ l.length := by
            simp only [List.length_cons, Nat.add_sub_cancel] at hcond
            omega
          simp [next_group, h2]
        · have h2 : ¬ i ≥ l.length := by
            simp only [List.length_cons, Nat.add_sub_cancel] at hcond
            omega
          simp [next_group, h2]
        · subst hcond
          simp [previous_group]
        · have h2 : ¬ i = 0 := by omega
          simp [previous_group, h2]

/-- Witness for C10 (amended): on the two-element list ["a", "b"],
`next_group` wraps from the last index to 0 and `previous_group` wraps
from index 0 to the last index, both resetting the proxy selection. -/
theorem C10_witness :
    next_group { group_names := ["a", "b"], group_selected := some 1
                 proxy_selected := some 5 }
      = some { group_names := ["a", "b"], group_selected := some 0
               proxy_selected := some 0 } ∧
    previous_group { group_names := ["a", "b"], group_selected := some 0
                     proxy_selected := some 5 }
      = some { group_names := ["a", "b"], group_selected := some 1
               proxy_selected := some 0 } :=
  ⟨((C10_amended_navigation
      { group_names := ["a", "b"], group_selected := some 1, proxy_selected := some 5 }
      1).2.2 (by decide) rfl).1 (by decide),
    ((C10_amended_navigation
      { group_names := ["a", "b"], group_selected := some 0, proxy_selected := some 5 }
      0).2.2 (by decide) rfl).2.2.1 rfl⟩
